import Mathlib

/-!
Verification of the specter endpoint-extraction engine.

The development shallowly embeds the per-language convention analyzers of the
repository (src/parsers/python.py, src/parsers/java.py, src/parsers/nodejs.py,
src/parsers/__init__.py) over an explicit model of the syntactic material each
analyzer consumes.  Tree-sitter parsing itself is outside the embedding: the
model types record, per language, exactly the capture data the analyzers read
from the syntax tree (annotation names and their string-literal arguments,
decorator shapes, route-call argument kinds), in source traversal order, and
the Lean functions reproduce the analyzers' correlation, classification and
normalization logic line by line.
-/

/-! ## String helpers (Python string primitives used by the analyzers) -/

/-- The apostrophe character, written via its code point. -/
def squote : Char := Char.ofNat 39

/-- The backtick character, written via its code point. -/
def btick : Char := Char.ofNat 96

/-- Python `str.lstrip(cs)`: drop the longest run of characters of `cs` from the left. -/
def lstripChars (cs : List Char) (s : String) : String :=
  ⟨s.data.dropWhile (fun c => cs.contains c)⟩

/-- Python `str.rstrip(cs)`: drop the longest run of characters of `cs` from the right. -/
def rstripChars (cs : List Char) (s : String) : String :=
  ⟨(s.data.reverse.dropWhile (fun c => cs.contains c)).reverse⟩

/-- Python `str.strip(cs)`: strip from both ends. -/
def stripChars (cs : List Char) (s : String) : String :=
  rstripChars cs (lstripChars cs s)

/-- One left-to-right, non-overlapping pass replacing `//` by `/`, the
semantics of Python's `"…".replace("//", "/")` specialised to this pattern:
after a replacement, scanning resumes after the matched pair, so `///`
becomes `//`. -/
def collapseSlashes : List Char → List Char
  | '/' :: '/' :: rest => '/' :: collapseSlashes rest
  | c :: rest => c :: collapseSlashes rest
  | [] => []

/-- Python `"…".replace("//", "/")` on strings. -/
def pyReplaceDoubleSlash (s : String) : String := ⟨collapseSlashes s.data⟩

/-- ASCII upper-casing, the effect of Python `str.upper()` on the route verbs. -/
def upperStr (s : String) : String := ⟨s.data.map Char.toUpper⟩

/-- Python `str.split('/')` (keeps empty segments, `""` yields `[""]`). -/
def splitSlash : List Char → List (List Char)
  | [] => [[]]
  | c :: rest =>
    let r := splitSlash rest
    if c = '/' then [] :: r
    else
      match r with
      | h :: t => (c :: h) :: t
      | [] => [[c]]

/-- `p` is a leading segment of `s`. -/
def leadsWith : List Char → List Char → Bool
  | [], _ => true
  | _ :: _, [] => false
  | p :: ps, c :: cs => p == c && leadsWith ps cs

/-- `p` occurs contiguously somewhere in `s`. -/
def containsSeq (p : List Char) : List Char → Bool
  | [] => leadsWith p []
  | c :: cs => leadsWith p (c :: cs) || containsSeq p cs

/-- Tree-sitter's `#match?` applies an unanchored regular-expression search; for
the alternation-of-literals patterns used by the analyzers this is exactly
"some alternative occurs as a substring". -/
def reSearch (pats : List String) (s : String) : Bool :=
  pats.any (fun p => containsSeq p.data s.data)

/-- The observable effect of Python `list(set(xs))` on a list of strings:
duplicates removed.  CPython's iteration order over the set is hash-dependent;
the model fixes one canonical order (keeping the last occurrence), and every
claim about such lists is stated order-insensitively. -/
def pySetList : List String → List String
  | [] => []
  | x :: xs => if x ∈ pySetList xs then pySetList xs else x :: pySetList xs

theorem mem_pySetList {x : String} : ∀ {l : List String}, x ∈ pySetList l ↔ x ∈ l := by
  intro l
  induction l with
  | nil => simp [pySetList]
  | cons y ys ih =>
    simp only [pySetList]
    split
    · simp only [ih, List.mem_cons]
      rename_i hy
      constructor
      · exact fun h => Or.inr h
      · rintro (rfl | h)
        · exact ih.mp hy
        · exact h
    · simp [List.mem_cons, ih]

theorem pySetList_nodup (l : List String) : (pySetList l).Nodup := by
  induction l with
  | nil => simp [pySetList]
  | cons x xs ih =>
    simp only [pySetList]
    split
    · exact ih
    · rename_i h
      exact List.Nodup.cons h ih

/-! ## Domain model (src/models.py) -/

/-- `ParamType` from src/models.py. -/
inductive ParamType where
  | path
  | query
  | body
  | header
  | cookie
deriving DecidableEq, Repr

/-- `APIParameter` from src/models.py. -/
structure APIParameter where
  name : String
  param_type : ParamType
  data_type : String
  required : Bool
deriving DecidableEq, Repr

/-- `APIEndpoint` from src/models.py. -/
structure APIEndpoint where
  file_path : String
  handler_name : String
  http_method : String
  path : String
  line_number : Nat
  snippet : String
  parameters : List APIParameter
  auth_mechanisms : List String
deriving DecidableEq, Repr

/-! ## Node.js analyzer (src/parsers/nodejs.py)

The route-call query of `NodeJSAnalyzer.analyze` matches call expressions
`(app|router).(get|post|put|delete|patch|use)(args)` (both identifier tests are
unanchored regex searches) and captures, per match, the call node as
`endpoint_node`, the object as `_obj`, the property as `method` and the
argument list as `args`.  The model records each matching call with the kinds
of its named arguments. -/

/-- A route call nested inside a handler body, as seen by the re-scan query of
`_parse_node_parameters` (which reuses the route-call query text).  Only the
capture texts matter to the embedded fold. -/
structure JSNestedCall where
  snippet : String
  obj : String
  verb : String
  argsText : String
deriving DecidableEq, Repr

/-- The material of a handler-function body that the two queries of
`_parse_node_parameters` can observe: the nested route-call matches, and
whether some `req.body` member access occurs (`body_query` filters member
expressions with `#eq? @req "req"` and `#eq? @param_type "body"`; an access
`req.query.sort` matches neither the inner node, whose property is `query`,
nor the outer node, whose object is not an identifier). -/
structure JSBody where
  nested : List JSNestedCall
  hasReqBody : Bool
deriving DecidableEq, Repr

/-- A named argument of a route call, by tree-sitter node kind. -/
inductive JSArg where
  | stringLit (raw : String)
  | arrowFunction (line : Nat) (body : JSBody)
  | functionExpression (line : Nat) (body : JSBody)
  | identifier (name : String)
  | other
deriving DecidableEq, Repr

/-- One call expression `obj.verb(args)` in the file, in source order. -/
structure JSCall where
  obj : String
  verb : String
  args : List JSArg
  line : Nat
  snippet : String
deriving DecidableEq, Repr

/-- The two `#match?` predicates of the route-call query. -/
def routeMatches (c : JSCall) : Bool :=
  reSearch ["app", "router"] c.obj &&
  reSearch ["get", "post", "put", "delete", "patch", "use"] c.verb

/-- nodejs.py line 84: the first named argument of kind string literal. -/
def firstStringLit (args : List JSArg) : Option String :=
  args.findSome? (fun a =>
    match a with
    | JSArg.stringLit raw => some raw
    | _ => none)

/-- nodejs.py line 89: handler candidates are identifiers, arrow functions and
function expressions. -/
def isHandlerKind : JSArg → Bool
  | JSArg.arrowFunction _ _ => true
  | JSArg.functionExpression _ _ => true
  | JSArg.identifier _ => true
  | _ => false

/-- nodejs.py lines 88-91: the last argument of a handler kind. -/
def lastHandlerArg (args : List JSArg) : Option JSArg :=
  args.reverse.find? isHandlerKind

/-- The quote characters stripped from a path literal (nodejs.py line 85). -/
def jsQuoteChars : List Char := [squote, '"', btick]

/-- nodejs.py lines 83-86: path := first string literal, quotes stripped,
else the empty string. -/
def routePathOf (args : List JSArg) : String :=
  match firstStringLit args with
  | some raw => stripChars jsQuoteChars raw
  | none => ""

/-- nodejs.py lines 96-101: handler naming. -/
def handlerNameOf : Option JSArg → String
  | some (JSArg.identifier n) => n
  | some (JSArg.arrowFunction ln _) => "anonymous_handler_L" ++ toString ln
  | some (JSArg.functionExpression ln _) => "anonymous_handler_L" ++ toString ln
  | _ => "unknown_handler"

/-- The body observable by the re-scan queries: running a query over an
identifier node yields no captures, so identifier handlers scan as empty. -/
def bodyOf : JSArg → JSBody
  | JSArg.arrowFunction _ b => b
  | JSArg.functionExpression _ b => b
  | _ => ⟨[], false⟩

/-- nodejs.py line 158. -/
def nodeParamMap (t : String) : Option ParamType :=
  if t = "query" then some ParamType.query
  else if t = "params" then some ParamType.path
  else if t = "body" then some ParamType.body
  else none

/-- The flat capture stream produced by re-running the route-call query over a
handler body.  Per match the query labels are exactly `endpoint_node`, `_obj`,
`method` and `args`, in traversal order — it defines no `param_type` or
`param_name` label. -/
def nestedCaptures (b : JSBody) : List (String × String) :=
  b.nested.flatMap (fun c =>
    [(c.snippet, "endpoint_node"), (c.obj, "_obj"), (c.verb, "method"), (c.argsText, "args")])

/-- nodejs.py lines 135-143: each `/`-separated segment of the path that
begins with `:` becomes a required Path parameter (name = segment with the
leading colons stripped). -/
def pathParamsOf (path : String) : List APIParameter :=
  ((splitSlash path.data).map (fun l => (⟨l⟩ : String))).filterMap (fun part =>
    if leadsWith [':'] part.data then
      some ⟨⟨part.data.dropWhile (fun c => c == ':')⟩, ParamType.path, "Any", true⟩
    else none)

/-- State of the capture-fold of nodejs.py lines 158-175. -/
structure NodeScanState where
  params : List APIParameter
  found : List (String × ParamType)
  current : Option ParamType
deriving DecidableEq, Repr

/-- nodejs.py lines 162-175, one capture.  In the source, a `param_name`
capture arriving while `current_type` is `None` would pass `None` to the
`APIParameter` constructor and raise; the branch is unreachable because the
query defines neither label, and the model leaves the state unchanged there. -/
def rescanStep (st : NodeScanState) : String × String → NodeScanState
  | (text, capName) =>
    if capName = "param_type" then { st with current := nodeParamMap text }
    else if capName = "param_name" then
      match st.current with
      | some t =>
        if (text, t) ∈ st.found then st
        else { st with params := st.params ++ [⟨text, t, "Any", false⟩],
                       found := (text, t) :: st.found }
      | none => st
    else st

/-- `NodeJSAnalyzer._parse_node_parameters` (nodejs.py lines 116-195). -/
def NodeJSAnalyzer.parse_node_parameters (handler : Option JSArg) (path : String) :
    List APIParameter :=
  match handler with
  | none => []
  | some h =>
    let init : NodeScanState :=
      ⟨pathParamsOf path, (pathParamsOf path).map (fun p => (p.name, p.param_type)), none⟩
    let st := (nestedCaptures (bodyOf h)).foldl rescanStep init
    if (bodyOf h).hasReqBody = true ∧ ("body", ParamType.body) ∉ st.found then
      st.params ++ [⟨"body", ParamType.body, "Object", false⟩]
    else st.params

/-- The per-call part of `NodeJSAnalyzer.analyze` (nodejs.py lines 68-112):
a grouped match either yields one endpoint, or none when the path is empty. -/
def analyzeCall (c : JSCall) : List APIEndpoint :=
  if routePathOf c.args = "" then []
  else
    [⟨"", handlerNameOf (lastHandlerArg c.args), upperStr c.verb, routePathOf c.args,
      c.line, c.snippet,
      NodeJSAnalyzer.parse_node_parameters (lastHandlerArg c.args) (routePathOf c.args), []⟩]

/-- `NodeJSAnalyzer.analyze` (nodejs.py lines 25-114): the query matches the
route calls, the capture groups are keyed by the call node (one group per
matching call, in traversal order), and each group is converted independently. -/
def NodeJSAnalyzer.analyze (calls : List JSCall) : List APIEndpoint :=
  (calls.filter routeMatches).flatMap analyzeCall

/-! ## Java analyzer (src/parsers/java.py)

The Java analyzer correlates annotation captures per annotation instance
(grouped by the annotation node's start byte, insertion in traversal order) and
reads, per instance, the annotation's simple name and — for non-marker
annotations — its argument subtree.  `_collect_string_literals` walks that
subtree and returns the text of every `string_literal` descendant, quotes
stripped, in traversal order; the model records an annotation's argument
subtree as exactly that ordered list of raw literal tokens (`none` for a
marker annotation, which has no argument list). -/

/-- One annotation instance: simple name, and the raw string-literal tokens
(quotes included) under its argument list, in traversal order; `none` models a
marker annotation. -/
structure JAnnot where
  name : String
  args : Option (List String)
deriving DecidableEq, Repr

/-- A formal parameter as matched by the parameter query of
`_parse_java_parameters` (its type must be a plain `type_identifier`; the
grouped captures keep the last `param_annotation` when several annotations
precede the parameter). -/
structure JFormalParam where
  annos : List String
  typeName : String
  name : String
deriving DecidableEq, Repr

/-- A method declaration as the analyzer observes it. -/
structure JMethod where
  name : String
  annots : List JAnnot
  params : List JFormalParam
  line : Nat
  snippet : String
deriving DecidableEq, Repr

/-- A class declaration: its modifier annotations and its methods. -/
structure JClass where
  annots : List JAnnot
  methods : List JMethod
deriving DecidableEq, Repr

/-- `JavaAnalyzer._collect_string_literals` (java.py lines 101-118) on the
modelled argument subtree: every string literal, `"` stripped from both ends,
in traversal order; an absent argument list yields nothing. -/
def JavaAnalyzer.collect_string_literals : Option (List String) → List String
  | none => []
  | some ts => ts.map (stripChars ['"'])

/-- java.py lines 132-136: the verb map of `_find_methods`. -/
def javaMethodMappings (n : String) : Option String :=
  if n = "GetMapping" then some ("GET")
  else if n = "PostMapping" then some ("POST")
  else if n = "PutMapping" then some ("PUT")
  else if n = "DeleteMapping" then some ("DELETE")
  else if n = "PatchMapping" then some ("PATCH")
  else if n = "RequestMapping" then some ("ANY")
  else if n = "GET" then some ("GET")
  else if n = "POST" then some ("POST")
  else if n = "PUT" then some ("PUT")
  else if n = "DELETE" then some ("DELETE")
  else if n = "PATCH" then some ("PATCH")
  else none

/-- java.py lines 138-141: the path-bearing annotation names. -/
def javaPathAnnotations : List String :=
  ["RequestMapping", "GetMapping", "PostMapping", "PutMapping",
   "DeleteMapping", "PatchMapping", "Path"]

/-- java.py lines 359-362: the fixed auth-annotation vocabulary. -/
def javaAuthNames : List String :=
  ["PreAuthorize", "RolesAllowed", "Secured", "PermitAll", "DenyAll",
   "SecurityRequirement", "SecurityRequirements", "PermissionRequired"]

/-- `JavaAnalyzer._find_auth_annotations` (java.py lines 345-381): every
annotation name in the fixed vocabulary, passed through `list(set(...))`. -/
def JavaAnalyzer.find_auth_annotations (annots : List JAnnot) : List String :=
  pySetList ((annots.map JAnnot.name).filter (fun n => decide (n ∈ javaAuthNames)))

/-- `JavaAnalyzer._find_class_base_path` (java.py lines 57-99): the first
`RequestMapping`/`Path` annotation that has an argument list decides the base
path (its first literal, or `""` when it has none); marker annotations of
those names are skipped. -/
def JavaAnalyzer.find_class_base_path : List JAnnot → String
  | [] => ""
  | a :: rest =>
    if a.name = "RequestMapping" ∨ a.name = "Path" then
      match a.args with
      | some ts => (JavaAnalyzer.collect_string_literals (some ts)).headD ("")
      | none => JavaAnalyzer.find_class_base_path rest
    else JavaAnalyzer.find_class_base_path rest

/-- java.py lines 183-202: one pass over the method's annotations computing
the HTTP method (`"ANY"` unless a concrete verb appears; the last concrete
verb wins) and whether any endpoint annotation is present. -/
def JavaAnalyzer.method_type_of (annots : List JAnnot) : String × Bool :=
  annots.foldl (fun st a =>
    let st1 := if a.name ∈ javaPathAnnotations then (st.1, true) else st
    match javaMethodMappings a.name with
    | some m => (if m ≠ "ANY" then m else st1.1, true)
    | none => st1) ("ANY", false)

/-- java.py lines 207-214: collect the string literals of every path-bearing
annotation, in order, stopping right after a `Path` annotation when the
HTTP method is already concrete. -/
def JavaAnalyzer.collect_paths (mt : String) : List JAnnot → List String
  | [] => []
  | a :: rest =>
    if a.name ∈ javaPathAnnotations then
      let lits := JavaAnalyzer.collect_string_literals a.args
      if a.name = "Path" ∧ mt ≠ "ANY" then lits
      else lits ++ JavaAnalyzer.collect_paths mt rest
    else JavaAnalyzer.collect_paths mt rest

/-- java.py line 223 and 230: `f"{base_path}/{path}".replace("//", "/").rstrip('/')`,
with an empty result becoming `"/"`. -/
def javaFullPath (basePath p : String) : String :=
  let s := rstripChars ['/'] (pyReplaceDoubleSlash (basePath ++ "/" ++ p))
  if s = "" then "/" else s

/-- java.py lines 290-300: the parameter-annotation kind map (an unannotated
parameter defaults to Body). -/
def javaClassifyParam (anno : String) : ParamType :=
  if anno = "PathVariable" ∨ anno = "PathParam" then ParamType.path
  else if anno = "RequestParam" ∨ anno = "QueryParam" then ParamType.query
  else if anno = "RequestHeader" ∨ anno = "HeaderParam" then ParamType.header
  else if anno = "CookieValue" ∨ anno = "CookieParam" then ParamType.cookie
  else ParamType.body

/-- `JavaAnalyzer._parse_java_parameters` (java.py lines 239-330): one
required parameter per matched formal parameter, then — scanning every
annotation in the method's modifiers — one synthetic optional Query parameter
named `swagger_param` appended per annotation named `Parameter`. -/
def JavaAnalyzer.parse_java_parameters (ps : List JFormalParam)
    (methodAnnots : List JAnnot) : List APIParameter :=
  (ps.map (fun p =>
    ⟨p.name, javaClassifyParam (p.annos.getLastD ("")), p.typeName, true⟩))
  ++ ((methodAnnots.filter (fun a => a.name == ("Parameter"))).map
      (fun _ => (⟨"swagger_param", ParamType.query, "", false⟩ : APIParameter)))

/-- The per-method part of `JavaAnalyzer._find_methods` (java.py lines
162-236): a method without endpoint annotations yields nothing; otherwise one
endpoint per collected path candidate (default candidate `""`), sharing the
handler name, HTTP method, parameters and the class/method auth union. -/
def JavaAnalyzer.method_endpoints (basePath : String) (classAuth : List String)
    (m : JMethod) : List APIEndpoint :=
  let st := JavaAnalyzer.method_type_of m.annots
  if st.2 = true then
    let paths0 := JavaAnalyzer.collect_paths st.1 m.annots
    let paths := if paths0.isEmpty then [""] else paths0
    let allAuth := pySetList (classAuth ++ JavaAnalyzer.find_auth_annotations m.annots)
    let params := JavaAnalyzer.parse_java_parameters m.params m.annots
    paths.map (fun p =>
      ⟨"", m.name, st.1, javaFullPath basePath p, m.line, m.snippet, params, allAuth⟩)
  else []

/-- `JavaAnalyzer._find_methods` (java.py lines 120-237) over a class body. -/
def JavaAnalyzer.find_methods (ms : List JMethod) (basePath : String)
    (classAuth : List String) : List APIEndpoint :=
  ms.flatMap (JavaAnalyzer.method_endpoints basePath classAuth)

/-- `JavaAnalyzer.analyze` (java.py lines 25-55): per class declaration,
compute base path and class auth from the modifiers and scan the class body. -/
def JavaAnalyzer.analyze (classes : List JClass) : List APIEndpoint :=
  classes.flatMap (fun c =>
    JavaAnalyzer.find_methods c.methods (JavaAnalyzer.find_class_base_path c.annots)
      (JavaAnalyzer.find_auth_annotations c.annots))

/-! ## Python analyzer (src/parsers/python.py)

The decorator query matches decorators of shape
`@obj.verb(… string …)` with an unanchored `#match?` on the verb; each match
captures the decorator node, the object, the verb and a string argument.  In
the tree-sitter-python grammar a decorator node's parent is always a
`decorated_definition` node (holding the decorators and the decorated
`function_definition`), and a `decorated_definition` sits inside a `module`
or a `block` — never directly inside a `function_definition`. -/

/-- One decorator of shape `@obj.verb(args)`, with the raw tokens (quotes
included) of its string arguments in traversal order. -/
structure PyDecorator where
  obj : String
  verb : String
  pathRaws : List String
deriving DecidableEq, Repr

/-- The node kinds that can contain a `decorated_definition` in the
tree-sitter-python grammar. -/
inductive PyContainer where
  | module
  | block
deriving DecidableEq, Repr

/-- The tree-sitter node-kind name of the container. -/
def PyContainer.typeName : PyContainer → String
  | PyContainer.module => "module"
  | PyContainer.block => "block"

/-- A decorated function definition.  `params` is the parameter list that
`_parse_python_parameters` would produce for the function's parameters node;
the claims under verification depend only on that list being a function of the
decorated function, not on its derivation. -/
structure PyFunction where
  name : String
  container : PyContainer
  decorators : List PyDecorator
  params : List APIParameter
  line : Nat
  snippet : String
deriving DecidableEq, Repr

/-- The decorator query's `#match?` verb filter (python.py line 46) plus the
structural requirement of at least one string argument. -/
def pyDecoratorMatches (d : PyDecorator) : Bool :=
  reSearch ["get", "post", "put", "delete", "patch", "route"] d.verb &&
  !d.pathRaws.isEmpty

/-- python.py lines 77-103: insert the endpoint for the handler name if absent
(method and path initially empty), then — replaying the query and keeping the
captures under this decorator instance — overwrite the endpoint's HTTP method
with the decorator's verb upper-cased and its path with the last string
argument, quotes stripped.  The state is the handler-name-keyed map
`endpoints_map` in insertion order. -/
def pyUpdate (st : List (String × APIEndpoint)) (f : PyFunction) (d : PyDecorator) :
    List (String × APIEndpoint) :=
  let st1 :=
    if st.any (fun kv => kv.1 == f.name) then st
    else st ++ [(f.name, ⟨"", f.name, "", "", f.line, f.snippet, f.params, []⟩)]
  st1.map (fun kv =>
    if kv.1 == f.name then
      (kv.1, { kv.2 with
        http_method := upperStr d.verb,
        path := stripChars [squote, '"'] ((d.pathRaws.getLastD ("")))})
    else kv)

/-- python.py lines 55-69: one processing step per matched decorator instance
(the first capture of a decorator triggers it, later captures of the same
decorator are skipped via `processed_nodes`).  The code then walks from the
decorator to its parent node and requires a `function_definition` there or at
the grandparent; the parent is the `decorated_definition` and the grandparent
is the module or a block, so both tests fail and the decorator is skipped
before any endpoint is recorded. -/
def pyProcessDecorator (f : PyFunction) (st : List (String × APIEndpoint))
    (d : PyDecorator) : List (String × APIEndpoint) :=
  if ("decorated_definition" : String) = "function_definition" then
    pyUpdate st f d
  else if f.container.typeName = "function_definition" then
    pyUpdate st f d
  else st

/-- `PythonAnalyzer.analyze` (python.py lines 24-105): process the matched
decorators in traversal order and return the recorded endpoints in insertion
order. -/
def PythonAnalyzer.analyze (fns : List PyFunction) : List APIEndpoint :=
  (fns.foldl (fun st f =>
    (f.decorators.filter pyDecoratorMatches).foldl (pyProcessDecorator f) st) []).map
    Prod.snd

/-! ## The factory (src/parsers/__init__.py and src/parsers/base.py)

`get_analyzer` is the factory from language identifier to analyzer; composed
with the analyzer's `analyze()`, the in-process contract takes a language
identifier and the source and returns either `none` — the factory's `None`,
reported by the caller as the unsupported-language failure — or the endpoint
list.  A byte sequence parses under every registered grammar (tree-sitter
always returns a tree), so the model carries each language's view of the
source. -/

/-- The views of one byte sequence under the registered grammars. -/
structure SourceFile where
  pyFuns : List PyFunction
  jClasses : List JClass
  jsCalls : List JSCall
deriving DecidableEq, Repr

/-- The four registered language identifiers (src/parsers/__init__.py). -/
def registeredLanguages : List String :=
  ["python", "java", "javascript", "typescript"]

/-- `get_analyzer` (src/parsers/__init__.py lines 7-17) composed with
`analyze()`; the `javascript` and `typescript` branches build the same
`NodeJSAnalyzer` up to the grammar choice. -/
def get_analyzer (language : String) (src : SourceFile) : Option (List APIEndpoint) :=
  if language = "python" then some (PythonAnalyzer.analyze src.pyFuns)
  else if language = "java" then some (JavaAnalyzer.analyze src.jClasses)
  else if language = "javascript" then some (NodeJSAnalyzer.analyze src.jsCalls)
  else if language = "typescript" then some (NodeJSAnalyzer.analyze src.jsCalls)
  else none

/-! ## Shared lemmas -/

theorem pyContainer_typeName_ne (c : PyContainer) : c.typeName ≠ "function_definition" := by
  cases c <;> decide

/-- Each decorator-processing step of the Python analyzer leaves the endpoint
map unchanged: the decorator's parent is a `decorated_definition` and the
grandparent a module or block, so the association check always fails. -/
theorem pyProcessDecorator_eq (f : PyFunction) (st : List (String × APIEndpoint))
    (d : PyDecorator) : pyProcessDecorator f st d = st := by
  unfold pyProcessDecorator
  rw [if_neg (by decide), if_neg (pyContainer_typeName_ne f.container)]

theorem foldl_pyProcess (f : PyFunction) (st : List (String × APIEndpoint)) :
    ∀ ds : List PyDecorator, ds.foldl (pyProcessDecorator f) st = st := by
  intro ds
  induction ds generalizing st with
  | nil => rfl
  | cons d ds ih => rw [List.foldl_cons, pyProcessDecorator_eq, ih]

/-- The Python analyzer never associates a decorator with its function, so it
emits no endpoint for any input. -/
theorem pythonAnalyze_eq_nil (fns : List PyFunction) : PythonAnalyzer.analyze fns = [] := by
  unfold PythonAnalyzer.analyze
  have h : ∀ st : List (String × APIEndpoint),
      fns.foldl (fun st f =>
        (f.decorators.filter pyDecoratorMatches).foldl (pyProcessDecorator f) st) st = st := by
    intro st
    induction fns generalizing st with
    | nil => rfl
    | cons f fs ih =>
      simp only [List.foldl_cons]
      rw [foldl_pyProcess, ih]
  rw [h]
  rfl

theorem method_endpoints_mem (basePath : String) (ca : List String) (m : JMethod)
    (e : APIEndpoint) (he : e ∈ JavaAnalyzer.method_endpoints basePath ca m) :
    e.file_path = "" ∧
    e.auth_mechanisms = pySetList (ca ++ JavaAnalyzer.find_auth_annotations m.annots) := by
  simp only [JavaAnalyzer.method_endpoints] at he
  split at he
  · simp only [List.mem_map] at he
    obtain ⟨p, _, rfl⟩ := he
    exact ⟨rfl, rfl⟩
  · simp at he

theorem java_analyze_file_path (classes : List JClass) :
    ∀ e ∈ JavaAnalyzer.analyze classes, e.file_path = "" := by
  intro e he
  simp only [JavaAnalyzer.analyze, JavaAnalyzer.find_methods, List.mem_flatMap] at he
  obtain ⟨c, _, m, _, hm⟩ := he
  exact (method_endpoints_mem _ _ _ _ hm).1

theorem analyzeCall_file_path (c : JSCall) :
    ∀ e ∈ analyzeCall c, e.file_path = "" := by
  intro e he
  unfold analyzeCall at he
  split at he
  · simp at he
  · simp only [List.mem_singleton] at he
    subst he
    rfl

theorem node_analyze_file_path (calls : List JSCall) :
    ∀ e ∈ NodeJSAnalyzer.analyze calls, e.file_path = "" := by
  intro e he
  simp only [NodeJSAnalyzer.analyze, List.mem_flatMap] at he
  obtain ⟨c, _, hc⟩ := he
  exact analyzeCall_file_path c e hc

/-! ## Claim C1 -/

/-- The failing input for C1: one top-level function carrying the two route
decorators `@app.get("/items/{id}")` and `@app.post("/items/{id}")`
(python.py is the analyzer under test; its decorator query matches both
decorators). -/
def c1fun : PyFunction :=
  ⟨"read_item", PyContainer.module,
   [⟨"app", "get", ["\"/items/{id}\""]⟩, ⟨"app", "post", ["\"/items/{id}\""]⟩],
   [⟨"id", ParamType.query, "int", true⟩], 3, "def read_item snippet"⟩

/-- Claim C1 (code bug): the claim promises exactly two Endpoints for a
function carrying two route decorators, but `PythonAnalyzer.analyze` returns
none at all — the decorator-to-function association (python.py lines 62-67)
looks for a `function_definition` at the decorator's parent or grandparent,
while the parent is always the `decorated_definition` and the grandparent the
module or a block, so every decorator is skipped. -/
theorem c1_python_decorators_lost :
    PythonAnalyzer.analyze [c1fun] = [] ∧ (PythonAnalyzer.analyze [c1fun]).length ≠ 2 := by
  refine ⟨pythonAnalyze_eq_nil [c1fun], ?_⟩
  rw [pythonAnalyze_eq_nil [c1fun]]
  decide

/-! ## Claim C2 -/

/-- A Java controller whose class base path is `"/api/"` and whose single
method maps `"/users/"`, the concrete instance named by the claim. -/
def c2Class : JClass :=
  ⟨[⟨"RequestMapping", some ["\"/api/\""]⟩],
   [⟨"getUsers", [⟨"GetMapping", some ["\"/users/\""]⟩], [], 2, "c2 snippet"⟩]⟩

/-- A controller with an empty base path and an empty method path. -/
def c2ClassEmpty : JClass :=
  ⟨[], [⟨"root", [⟨"GetMapping", some []⟩], [], 2, "c2e snippet"⟩]⟩

/-- A method with a single `@GetMapping` whose one string-literal argument is
the raw token `mp`. -/
def c2Method (mp : String) : JMethod :=
  ⟨"getUsers", [⟨"GetMapping", some [mp]⟩], [], 2, "c2m snippet"⟩

/-- Claim C2, counterexample: base path `"/api/"` with method path `"/users/"`
yields `"/api//users"`, not the claimed `"/api/users"` — the single
`replace("//", "/")` pass leaves one of the two double slashes of
`"/api///users/"` in place, so duplicate slashes are not all collapsed. -/
theorem c2_counterexample :
    (JavaAnalyzer.analyze [c2Class]).map (fun e => e.path) = ["/api//users"] ∧
    ("/api//users" : String) ≠ "/api/users" := by
  decide

/-- Claim C2 as amended: the final path is `basePath + "/" + methodPath` with
ONE left-to-right pass replacing `//` by `/`, then trailing slashes trimmed
and an empty result becoming `"/"` (the function `javaFullPath`); base
`"/api/"` with method `"/users/"` therefore yields `"/api//users"`, while base
`""` with method `""` yields `"/"` and inputs producing at most double slashes
are fully collapsed, e.g. `"/api"` + `"/users"` gives `"/api/users"`. -/
theorem c2_amended_path_normalization :
    (∀ base mp, (JavaAnalyzer.find_methods [c2Method mp] base []).map (fun e => e.path)
        = [javaFullPath base (stripChars ['"'] mp)]) ∧
    javaFullPath "/api/" "/users/" = "/api//users" ∧
    javaFullPath "" "" = "/" ∧
    javaFullPath "/api" "/users" = "/api/users" := by
  refine ⟨fun base mp => rfl, by decide, by decide, by decide⟩

/-! ## Claim C3 -/

/-- The failing input for C3:
`router.get('/users/:id', (req, res) => { req.query.sort; req.body; })`.
The arrow-function body contains no nested route call (so the re-scan query
yields no captures) and one `req.body` member access; `req.query.sort` matches
neither query. -/
def c3call : JSCall :=
  ⟨"router", "get",
   [JSArg.stringLit "\"/users/:id\"", JSArg.arrowFunction 1 ⟨[], true⟩],
   1, "router.get c3 snippet"⟩

/-- Claim C3 (code bug): the claim promises three parameters (required Path
`id`, optional Query `sort`, optional Body `body`), but the analyzer returns
only two — the handler-body re-scan reuses the route-call query, whose capture
labels (`endpoint_node`, `_obj`, `method`, `args`) never hit the
`param_type`/`param_name` branches, so the `req.query.sort` access never
becomes a Query parameter. -/
theorem c3_nodejs_missing_query_param :
    NodeJSAnalyzer.analyze [c3call] =
      [⟨"", "anonymous_handler_L1", "GET", "/users/:id", 1, "router.get c3 snippet",
        [⟨"id", ParamType.path, "Any", true⟩, ⟨"body", ParamType.body, "Object", false⟩],
        []⟩] ∧
    (NodeJSAnalyzer.analyze [c3call]).map (fun e => e.parameters.map (fun p => p.name))
      = [["id", "body"]] := by
  decide

/-! ## Claim C4 -/

/-- The string-literal path candidates carried by a method's annotations:
every string literal under a path-bearing annotation, in order. -/
def javaPathCandidates (m : JMethod) : List String :=
  ((m.annots.filter (fun a => decide (a.name ∈ javaPathAnnotations))).map
    (fun a => JavaAnalyzer.collect_string_literals a.args)).flatten

/-- When no annotation is named `Path`, the collection loop never breaks and
gathers exactly the string literals of every path-bearing annotation. -/
theorem collect_paths_no_path (mt : String) (annots : List JAnnot)
    (h : ∀ a ∈ annots, a.name ≠ "Path") :
    JavaAnalyzer.collect_paths mt annots =
      ((annots.filter (fun a => decide (a.name ∈ javaPathAnnotations))).map
        (fun a => JavaAnalyzer.collect_string_literals a.args)).flatten := by
  induction annots with
  | nil => rfl
  | cons a rest ih =>
    have ha : a.name ≠ "Path" := h a (List.mem_cons_self a rest)
    have hrest := ih (fun b hb => h b (List.mem_cons_of_mem a hb))
    unfold JavaAnalyzer.collect_paths
    by_cases hp : a.name ∈ javaPathAnnotations
    · rw [if_pos hp, if_neg (fun hand => ha hand.1)]
      simp [List.filter_cons, hp, hrest]
    · rw [if_neg hp]
      simp [List.filter_cons, hp, hrest]

/-- The spec's example class: `@RequestMapping("/api")` on the class,
`@GetMapping({"/a", "/b"})` on the method. -/
def c4Class : JClass :=
  ⟨[⟨"RequestMapping", some ["\"/api\""]⟩],
   [⟨"listItems", [⟨"GetMapping", some ["\"/a\"", "\"/b\""]⟩], [], 3, "c4 snippet"⟩]⟩

/-- A method whose annotations carry two path candidates (`"/x"` under `@Path`,
`"/y"` under `@RequestMapping`) next to a concrete verb marker `@GET`. -/
def c4cexMethod : JMethod :=
  ⟨"handle",
   [⟨"GET", none⟩, ⟨"Path", some ["\"/x\""]⟩, ⟨"RequestMapping", some ["\"/y\""]⟩],
   [], 5, "c4cex snippet"⟩

/-- Claim C4, counterexample: this method's annotations carry two string-literal
path candidates, yet only one Endpoint is emitted — after consuming the `@Path`
literal while the HTTP method is already concrete (`GET`), the collection loop
breaks and drops the `@RequestMapping` candidate `"/y"`. -/
theorem c4_counterexample :
    javaPathCandidates c4cexMethod = ["/x", "/y"] ∧
    (JavaAnalyzer.analyze [⟨[], [c4cexMethod]⟩]).map (fun e => (e.http_method, e.path))
      = [("GET", "/x")] := by
  decide

/-- Claim C4 as amended: one Endpoint per collected path candidate, where
collection scans the annotations in order and stops right after a `Path`
annotation when a concrete verb is present; when no annotation is named `Path`
a method with n candidates yields max 1 n Endpoints (n = 0 falls back to the
single empty candidate).  The spec's example holds: `@RequestMapping("/api")`
with `@GetMapping({"/a","/b"})` yields exactly the two GET endpoints
`/api/a` and `/api/b`. -/
theorem c4_amended_endpoints_per_candidate (m : JMethod) (base : String)
    (ca : List String)
    (hep : (JavaAnalyzer.method_type_of m.annots).2 = true)
    (hnp : ∀ a ∈ m.annots, a.name ≠ "Path") :
    ((JavaAnalyzer.method_endpoints base ca m).length
        = max 1 (javaPathCandidates m).length) ∧
    (JavaAnalyzer.analyze [c4Class]).map (fun e => (e.http_method, e.path))
      = [("GET", "/api/a"), ("GET", "/api/b")] := by
  constructor
  · simp only [JavaAnalyzer.method_endpoints]
    rw [if_pos hep, List.length_map, collect_paths_no_path _ _ hnp]
    rw [javaPathCandidates]
    cases hc : ((m.annots.filter (fun a => decide (a.name ∈ javaPathAnnotations))).map
        (fun a => JavaAnalyzer.collect_string_literals a.args)).flatten with
    | nil => rfl
    | cons x xs => simp [List.isEmpty_cons, Nat.max_def]
  · decide

/-- Witness for the amended C4 at the spec's example method. -/
theorem c4_amended_endpoints_per_candidate_witness :
    ((JavaAnalyzer.method_type_of (c4Class.methods.headD
        ⟨"", [], [], 0, ""⟩).annots).2 = true) ∧
    ((JavaAnalyzer.method_endpoints ("/api") [] (c4Class.methods.headD
        ⟨"", [], [], 0, ""⟩)).length
      = max 1 (javaPathCandidates (c4Class.methods.headD ⟨"", [], [], 0, ""⟩)).length) :=
  ⟨by decide,
   (c4_amended_endpoints_per_candidate (c4Class.methods.headD ⟨"", [], [], 0, ""⟩)
     ("/api") [] (by decide) (by decide)).1⟩

/-! ## Claim C5 -/

/-- Claim C5: every Endpoint emitted for a method `m` of a class with modifier
annotations `cannots` — `JavaAnalyzer.analyze` on that class is exactly the
concatenation, method by method, of these `method_endpoints` (third conjunct),
so `he` identifies the endpoint's own producing method — carries as
`auth_mechanisms` exactly the set union of the auth-annotation names found on
the class and those found on `m` itself: membership-wise (first conjunct) and
without duplicates (second conjunct), order not significant. -/
theorem c5_auth_union_per_method (cannots : List JAnnot) (ms : List JMethod)
    (m : JMethod) (e : APIEndpoint)
    (he : e ∈ JavaAnalyzer.method_endpoints
      (JavaAnalyzer.find_class_base_path cannots)
      (JavaAnalyzer.find_auth_annotations cannots) m) :
    (∀ x : String, x ∈ e.auth_mechanisms ↔
      (x ∈ JavaAnalyzer.find_auth_annotations cannots ∨
       x ∈ JavaAnalyzer.find_auth_annotations m.annots)) ∧
    e.auth_mechanisms.Nodup ∧
    JavaAnalyzer.analyze [⟨cannots, ms⟩]
      = ms.flatMap (JavaAnalyzer.method_endpoints
          (JavaAnalyzer.find_class_base_path cannots)
          (JavaAnalyzer.find_auth_annotations cannots)) := by
  have h2 := (method_endpoints_mem _ _ _ _ he).2
  refine ⟨fun x => ?_, ?_, ?_⟩
  · rw [h2, mem_pySetList, List.mem_append]
  · rw [h2]
    exact pySetList_nodup _
  · simp [JavaAnalyzer.analyze, JavaAnalyzer.find_methods]

/-- The class-level `@PreAuthorize` annotations of the witness controller. -/
def c5CAnnots : List JAnnot :=
  [⟨"RestController", none⟩, ⟨"PreAuthorize", some ["\"hasRole(ADMIN)\""]⟩]

/-- The witness method carrying `@GetMapping("/u")` and `@RolesAllowed`. -/
def c5Method : JMethod :=
  ⟨"getUser", [⟨"GetMapping", some ["\"/u\""]⟩, ⟨"RolesAllowed", some ["\"ADMIN\""]⟩],
   [], 4, "c5 snippet"⟩

/-- The endpoint the witness controller yields. -/
def c5Endpoint : APIEndpoint :=
  ⟨"", "getUser", "GET", "/u", 4, "c5 snippet", [], ["PreAuthorize", "RolesAllowed"]⟩

/-- Witness for C5: the single endpoint the witness controller emits for
`c5Method` carries the class-level `@PreAuthorize` and the method-level
`@RolesAllowed`, duplicate-free, and the class analysis is the per-method
concatenation. -/
theorem c5_auth_union_per_method_witness :
    (c5Endpoint ∈ JavaAnalyzer.method_endpoints
        (JavaAnalyzer.find_class_base_path c5CAnnots)
        (JavaAnalyzer.find_auth_annotations c5CAnnots) c5Method) ∧
    ("PreAuthorize" ∈ c5Endpoint.auth_mechanisms ∧
     "RolesAllowed" ∈ c5Endpoint.auth_mechanisms) ∧
    ((∀ x : String, x ∈ c5Endpoint.auth_mechanisms ↔
        (x ∈ JavaAnalyzer.find_auth_annotations c5CAnnots ∨
         x ∈ JavaAnalyzer.find_auth_annotations c5Method.annots)) ∧
      c5Endpoint.auth_mechanisms.Nodup ∧
      JavaAnalyzer.analyze [⟨c5CAnnots, [c5Method]⟩]
        = [c5Method].flatMap (JavaAnalyzer.method_endpoints
            (JavaAnalyzer.find_class_base_path c5CAnnots)
            (JavaAnalyzer.find_auth_annotations c5CAnnots))) :=
  ⟨by decide, ⟨by decide, by decide⟩,
   c5_auth_union_per_method c5CAnnots [c5Method] c5Method c5Endpoint (by decide)⟩

/-! ## Claim C6 -/

/-- A method with two bare `@Parameter` markers among its annotations. -/
def c6Method : JMethod :=
  ⟨"search", [⟨"GetMapping", some []⟩, ⟨"Parameter", none⟩, ⟨"Parameter", none⟩],
   [⟨[], "String", "q"⟩], 7, "c6 snippet"⟩

/-- Claim C6, counterexample: with two `@Parameter` occurrences the analyzer
appends two synthetic `swagger_param` entries, not the single extra entry the
claim promises. -/
theorem c6_counterexample :
    (JavaAnalyzer.analyze [⟨[], [c6Method]⟩]).map
        (fun e => e.parameters.countP (fun p => p.name == ("swagger_param"))) = [2] ∧
    (2 : Nat) ≠ 1 := by
  decide

/-- Claim C6 as amended: the analyzer appends one synthetic optional Query
parameter named `swagger_param` with empty declared type PER `@Parameter`
occurrence among the method's annotations (independent of the
formal-parameter annotations), and every `swagger_param` entry has exactly
that shape. -/
theorem c6_amended_swagger_per_occurrence (ps : List JFormalParam)
    (annots : List JAnnot) (h : ∀ p ∈ ps, p.name ≠ "swagger_param") :
    ((JavaAnalyzer.parse_java_parameters ps annots).countP
        (fun p => p.name == ("swagger_param"))
      = annots.countP (fun a => a.name == ("Parameter"))) ∧
    (∀ q ∈ JavaAnalyzer.parse_java_parameters ps annots, q.name = "swagger_param" →
      q = ⟨"swagger_param", ParamType.query, "", false⟩) := by
  constructor
  · rw [JavaAnalyzer.parse_java_parameters, List.countP_append]
    have h1 : (ps.map (fun p =>
        (⟨p.name, javaClassifyParam (p.annos.getLastD ("")), p.typeName, true⟩
          : APIParameter))).countP (fun p => p.name == ("swagger_param")) = 0 := by
      rw [List.countP_eq_zero]
      intro a ha
      simp only [List.mem_map] at ha
      obtain ⟨p, hp, rfl⟩ := ha
      simpa using h p hp
    rw [h1, Nat.zero_add, List.countP_map]
    simp [Function.comp, List.countP_eq_length_filter]
  · intro q hq hname
    rw [JavaAnalyzer.parse_java_parameters] at hq
    rcases List.mem_append.mp hq with hq | hq
    · simp only [List.mem_map] at hq
      obtain ⟨p, hp, rfl⟩ := hq
      exact absurd hname (h p hp)
    · simp only [List.mem_map] at hq
      obtain ⟨a, _, rfl⟩ := hq
      rfl

/-- The witness method annotations: one `@GetMapping` and one `@Parameter`. -/
def c6wAnnots : List JAnnot := [⟨"GetMapping", some ["\"/s\""]⟩, ⟨"Parameter", none⟩]

/-- The witness formal-parameter list. -/
def c6wParams : List JFormalParam := [⟨[], "String", "q"⟩]

/-- Witness for the amended C6: one `@Parameter` occurrence yields exactly one
`swagger_param` entry. -/
theorem c6_amended_swagger_per_occurrence_witness :
    (∀ p ∈ c6wParams, p.name ≠ "swagger_param") ∧
    ((JavaAnalyzer.parse_java_parameters c6wParams c6wAnnots).countP
        (fun p => p.name == ("swagger_param"))
      = c6wAnnots.countP (fun a => a.name == ("Parameter"))) :=
  ⟨by decide, (c6_amended_swagger_per_occurrence c6wParams c6wAnnots (by decide)).1⟩

/-! ## Claim C7 -/

/-- Claim C7: analysis is deterministic — the embedded contract is a pure
function of the language identifier and the parsed source, so running any
analyzer twice on identical input yields identical endpoint sequences.  (The
single source of run-to-run nondeterminism in the Python code, the iteration
order of `list(set(...))`, is fixed within one interpreter process and
modelled canonically by `pySetList`.) -/
theorem c7_deterministic (lang : String) (src : SourceFile) :
    get_analyzer lang src = get_analyzer lang src ∧
    PythonAnalyzer.analyze src.pyFuns = PythonAnalyzer.analyze src.pyFuns ∧
    JavaAnalyzer.analyze src.jClasses = JavaAnalyzer.analyze src.jClasses ∧
    NodeJSAnalyzer.analyze src.jsCalls = NodeJSAnalyzer.analyze src.jsCalls :=
  ⟨rfl, rfl, rfl, rfl⟩

/-! ## Claim C8 -/

/-- A matching route call with a handler but whose only string literal is the
empty literal. -/
def c8cex : JSCall :=
  ⟨"app", "get", [JSArg.stringLit "\"\"", JSArg.identifier "handle"], 2, "c8 snippet"⟩

/-- Claim C8, counterexample: a string literal IS present in the argument
list, yet no Endpoint is emitted at all — the literal's quoted content strips
to the empty string, which the analyzer treats like an absent path
(`if not path: continue`), so the first literal does not become any
Endpoint's path. -/
theorem c8_counterexample :
    NodeJSAnalyzer.analyze [c8cex] = [] ∧
    routeMatches c8cex = true ∧
    (∃ raw, firstStringLit c8cex.args = some raw) := by
  exact ⟨by decide, by decide, ⟨"\"\"", by decide⟩⟩

/-- Claim C8 as amended: a route call with no string-literal argument is
silently discarded (zero Endpoints), and so is a call whose first string
literal strips to the empty string; otherwise exactly one Endpoint is emitted
and its path is the first string literal in encounter order, quotes stripped. -/
theorem c8_amended_first_literal (c : JSCall) (hm : routeMatches c = true) :
    (firstStringLit c.args = none → NodeJSAnalyzer.analyze [c] = []) ∧
    (∀ raw, firstStringLit c.args = some raw →
      (stripChars jsQuoteChars raw = "" → NodeJSAnalyzer.analyze [c] = []) ∧
      (stripChars jsQuoteChars raw ≠ "" →
        ∃ e, NodeJSAnalyzer.analyze [c] = [e] ∧
          e.path = stripChars jsQuoteChars raw)) := by
  have hone : NodeJSAnalyzer.analyze [c] = analyzeCall c := by
    simp [NodeJSAnalyzer.analyze, List.filter, hm]
  constructor
  · intro h0
    rw [hone]
    simp [analyzeCall, routePathOf, h0]
  · intro raw hr
    have hp : routePathOf c.args = stripChars jsQuoteChars raw := by
      simp [routePathOf, hr]
    constructor
    · intro hempty
      rw [hone]
      simp [analyzeCall, hp, hempty]
    · intro hne
      rw [hone]
      unfold analyzeCall
      rw [hp, if_neg hne]
      exact ⟨_, rfl, rfl⟩

/-- A matching route call with a nonempty first literal and a named handler. -/
def c8wcall : JSCall :=
  ⟨"router", "post", [JSArg.stringLit "\"/x\"", JSArg.identifier "handle"], 4, "c8w snippet"⟩

/-- Witness for the amended C8: the nonempty first literal becomes the
emitted Endpoint's path. -/
theorem c8_amended_first_literal_witness :
    routeMatches c8wcall = true ∧
    (∃ e, NodeJSAnalyzer.analyze [c8wcall] = [e] ∧
      e.path = stripChars jsQuoteChars ("\"/x\"")) :=
  ⟨by decide,
   ((c8_amended_first_literal c8wcall (by decide)).2 ("\"/x\"") rfl).2 (by decide)⟩

/-! ## Claim C9 -/

/-- Claim C9: an unregistered language identifier makes the contract fail
(the factory's `None`, reported as the unsupported-language error) instead of
returning endpoints, and every endpoint sequence a registered identifier
returns leaves `file_path` blank. -/
theorem c9_unsupported_language (lang : String) (src : SourceFile) :
    (lang ∉ registeredLanguages → get_analyzer lang src = none) ∧
    (∀ es, get_analyzer lang src = some es → ∀ e ∈ es, e.file_path = "") := by
  constructor
  · intro hni
    have h1 : lang ≠ "python" := fun h => hni (by rw [h]; decide)
    have h2 : lang ≠ "java" := fun h => hni (by rw [h]; decide)
    have h3 : lang ≠ "javascript" := fun h => hni (by rw [h]; decide)
    have h4 : lang ≠ "typescript" := fun h => hni (by rw [h]; decide)
    unfold get_analyzer
    rw [if_neg h1, if_neg h2, if_neg h3, if_neg h4]
  · intro es hes e he
    unfold get_analyzer at hes
    split_ifs at hes
    · injection hes with hes
      subst hes
      rw [pythonAnalyze_eq_nil] at he
      cases he
    · injection hes with hes
      subst hes
      exact java_analyze_file_path _ e he
    · injection hes with hes
      subst hes
      exact node_analyze_file_path _ e he
    · injection hes with hes
      subst hes
      exact node_analyze_file_path _ e he

/-- A source file whose Java view is the C5 witness controller. -/
def c9Source : SourceFile := ⟨[], [⟨c5CAnnots, [c5Method]⟩], []⟩

/-- Witness for C9: `ruby` is rejected, and the Java endpoints of a registered
identifier all leave `file_path` blank. -/
theorem c9_unsupported_language_witness :
    (get_analyzer ("ruby") c9Source = none) ∧
    (∀ e ∈ JavaAnalyzer.analyze c9Source.jClasses, e.file_path = "") :=
  ⟨(c9_unsupported_language ("ruby") c9Source).1 (by decide),
   fun e he => (c9_unsupported_language ("java") c9Source).2
     (JavaAnalyzer.analyze c9Source.jClasses) rfl e he⟩

/-! ## Claim C10 -/

/-- Claim C10: a matching route call with a (nonempty) string-literal path but
no argument of a handler kind still emits one Endpoint, named
`unknown_handler`, and its parameter list is empty — `_parse_node_parameters`
returns immediately on a missing handler, so not even `:`-prefixed path
segments yield Path parameters. -/
theorem c10_unknown_handler (c : JSCall) (raw : String)
    (hm : routeMatches c = true)
    (h1 : firstStringLit c.args = some raw)
    (h2 : stripChars jsQuoteChars raw ≠ "")
    (h3 : ∀ a ∈ c.args, isHandlerKind a = false) :
    NodeJSAnalyzer.analyze [c] =
      [⟨"", "unknown_handler", upperStr c.verb, stripChars jsQuoteChars raw,
        c.line, c.snippet, [], []⟩] := by
  have hone : NodeJSAnalyzer.analyze [c] = analyzeCall c := by
    simp [NodeJSAnalyzer.analyze, List.filter, hm]
  have hp : routePathOf c.args = stripChars jsQuoteChars raw := by
    simp [routePathOf, h1]
  have hh : lastHandlerArg c.args = none := by
    rw [lastHandlerArg, List.find?_eq_none]
    intro a ha
    simp [h3 a (List.mem_reverse.mp ha)]
  rw [hone]
  unfold analyzeCall
  rw [hp, if_neg h2, hh]
  rfl

/-- A route call whose path contains a `:`-prefixed segment and whose argument
list has no handler-kind argument. -/
def c10call : JSCall :=
  ⟨"app", "get", [JSArg.stringLit "\"/users/:id\""], 3, "c10 snippet"⟩

/-- Witness for C10: `app.get("/users/:id")` yields one `unknown_handler`
Endpoint with an empty parameter list. -/
theorem c10_unknown_handler_witness :
    routeMatches c10call = true ∧
    NodeJSAnalyzer.analyze [c10call] =
      [⟨"", "unknown_handler", "GET", "/users/:id", 3, "c10 snippet", [], []⟩] :=
  ⟨by decide,
   c10_unknown_handler c10call ("\"/users/:id\"") (by decide) rfl (by decide) (by decide)⟩
